import Mathlib

/-!
Formal model of `app/models.py`.

The source file declares a single pydantic model:

    class User(BaseModel):
        id: int
        name: str
        email: str
        users: Optional[List[str]] = None
        address: Optional[str] = None

We embed the data model and pydantic's construction-time validation of it.
Construction takes a mapping from field names to runtime values and either
returns a validated `User` record or a validation error listing, for each
offending field, whether it was missing or had a non-conforming value.
Validation follows pydantic's default (lax) mode: an `int` field accepts an
integer or a string spelling an integer; a `str` field accepts a string;
`Optional[...]` fields accept the explicit no-value marker `None` and
default to it when the key is absent; keys outside the declared field set
are ignored.
-/

namespace Models

/-- Runtime values that can appear in an input mapping: the Python no-value
marker `None`, booleans, integers, strings and lists. -/
inductive Value where
  | vnone : Value
  | vbool : Bool → Value
  | vint : Int → Value
  | vstr : String → Value
  | vlist : List Value → Value

/-- An input mapping from field names to values; the first binding of a key
is the one that counts. -/
abbrev Fields := List (String × Value)

/-- The nature of a single field's validation failure: the required field
was absent, or the supplied value did not conform to the declared type. -/
inductive FieldErrorKind where
  | missing : FieldErrorKind
  | wrongType : FieldErrorKind
deriving DecidableEq

/-- One entry of a validation error: the offending field and the kind of
mismatch. -/
abbrev FieldError := String × FieldErrorKind

/-- The `User` record declared in `app/models.py`: required `id : int`,
`name : str`, `email : str`, and optional `users : Optional[List[str]]`
and `address : Optional[str]`, both defaulting to the no-value marker. -/
structure User where
  id : Int
  name : String
  email : String
  users : Option (List String)
  address : Option String
deriving DecidableEq

/-- Digits-only reading of a character list as a natural number; `none` on
an empty list or any non-digit character. -/
def parseDigits (cs : List Char) : Option Nat :=
  if cs.isEmpty then none
  else cs.foldl (fun acc c => acc.bind (fun n =>
    if c.isDigit then some (n * 10 + (c.toNat - 48)) else none)) (some 0)

/-- Reading of a string as an integer, with an optional leading sign,
mirroring the string-to-integer coercion pydantic applies to `int` fields
in lax mode. -/
def parseIntString (s : String) : Option Int :=
  match s.data with
  | '-' :: rest => (parseDigits rest).map (fun n => -(n : Int))
  | '+' :: rest => (parseDigits rest).map (fun n => (n : Int))
  | cs => (parseDigits cs).map (fun n => (n : Int))

/-- Validation of a value against `int` in pydantic's lax mode: an integer
is accepted as-is and a string spelling an integer is coerced; booleans,
`None`, lists and non-numeric strings are rejected. -/
def coerceInt : Value → Option Int
  | .vint i => some i
  | .vstr s => parseIntString s
  | _ => none

/-- Validation of a value against `str`: only strings are accepted. -/
def coerceStr : Value → Option String
  | .vstr s => some s
  | _ => none

/-- Validation of each element of a list against `str`. -/
def coerceStrList : List Value → Option (List String)
  | [] => some []
  | v :: vs =>
    match coerceStr v, coerceStrList vs with
    | some s, some ss => some (s :: ss)
    | _, _ => none

/-- Validation of a value against `List[str]`: a list whose elements are
all strings. -/
def coerceListStr : Value → Option (List String)
  | .vlist vs => coerceStrList vs
  | _ => none

/-- Validation of one required field: absence is a `missing` error, a value
the coercion rejects is a `wrongType` error. -/
def requiredField (m : Fields) (f : String) (coe : Value → Option α) :
    Except FieldError α :=
  match List.lookup f m with
  | none => .error (f, .missing)
  | some v =>
    match coe v with
    | none => .error (f, .wrongType)
    | some a => .ok a

/-- Validation of one optional field: absence and an explicit `None` both
give the no-value marker, any other value must pass the coercion. -/
def optionalField (m : Fields) (f : String) (coe : Value → Option α) :
    Except FieldError (Option α) :=
  match List.lookup f m with
  | none => .ok none
  | some .vnone => .ok none
  | some v =>
    match coe v with
    | none => .error (f, .wrongType)
    | some a => .ok (some a)

/-- Validation of the `id` field. -/
def checkId (m : Fields) : Except FieldError Int :=
  requiredField m "id" coerceInt

/-- Validation of the `name` field. -/
def checkName (m : Fields) : Except FieldError String :=
  requiredField m "name" coerceStr

/-- Validation of the `email` field. -/
def checkEmail (m : Fields) : Except FieldError String :=
  requiredField m "email" coerceStr

/-- Validation of the `users` field. -/
def checkUsers (m : Fields) : Except FieldError (Option (List String)) :=
  optionalField m "users" coerceListStr

/-- Validation of the `address` field. -/
def checkAddress (m : Fields) : Except FieldError (Option String) :=
  optionalField m "address" coerceStr

/-- The error list contributed by one field's validation outcome. -/
def errList : Except FieldError α → List FieldError
  | .error e => [e]
  | .ok _ => []

/-- All per-field errors of a mapping, in field declaration order, as a
pydantic `ValidationError` reports every failing field at once. -/
def fieldErrors (m : Fields) : List FieldError :=
  errList (checkId m) ++ errList (checkName m) ++ errList (checkEmail m) ++
    errList (checkUsers m) ++ errList (checkAddress m)

/-- Construction of a `User` from an input mapping: if every field
validates, the record is assembled from the validated values; otherwise
construction fails with the list of per-field errors. -/
def construct (m : Fields) : Except (List FieldError) User :=
  match checkId m, checkName m, checkEmail m, checkUsers m, checkAddress m with
  | .ok i, .ok n, .ok e, .ok us, .ok ad =>
    .ok { id := i, name := n, email := e, users := us, address := ad }
  | _, _, _, _, _ => .error (fieldErrors m)

/-- Serialization of a constructed `User` back to its field mapping, as
pydantic's `model_dump` does, with absent optional fields rendered as the
explicit no-value marker. -/
def toFields (u : User) : Fields :=
  [("id", Value.vint u.id), ("name", Value.vstr u.name),
   ("email", Value.vstr u.email),
   ("users", match u.users with
     | none => Value.vnone
     | some l => Value.vlist (l.map Value.vstr)),
   ("address", match u.address with
     | none => Value.vnone
     | some a => Value.vstr a)]

/-- Mapping a list of strings into string values and validating it back
against `List[str]` recovers the original list. -/
theorem coerceStrList_map (l : List String) :
    coerceStrList (l.map Value.vstr) = some l := by
  induction l with
  | nil => rfl
  | cons s t ih => simp [coerceStrList, coerceStr, ih]

/-- When some field's validation fails, construction returns the full
per-field error list. -/
theorem construct_eq_error_of_mem (m : Fields) (err : FieldError)
    (h : err ∈ fieldErrors m) : construct m = .error (fieldErrors m) := by
  unfold construct
  split
  · exfalso
    simp_all [fieldErrors, errList]
  · rfl

example : construct [("id", Value.vint 1), ("name", Value.vstr "Ana"),
    ("email", Value.vstr "ana@example.com")] =
    .ok { id := 1, name := "Ana", email := "ana@example.com",
          users := none, address := none } := rfl

example : construct [("id", Value.vstr "123"), ("name", Value.vstr "Bad"),
    ("email", Value.vstr "x@example.com")] =
    .ok { id := 123, name := "Bad", email := "x@example.com",
          users := none, address := none } := rfl

example : construct [("name", Value.vstr "NoId"),
    ("email", Value.vstr "x@example.com")] =
    .error [("id", FieldErrorKind.missing)] := rfl

example : construct [("id", Value.vstr "abc"), ("name", Value.vstr "Bad"),
    ("email", Value.vstr "x@example.com")] =
    .error [("id", FieldErrorKind.wrongType)] := rfl

/-- C1: an input mapping supplying `id` as an integer, `name` and `email`
as arbitrary text (no semantic check on any of them), and optionally
`users` as a list of text and `address` as text, constructs successfully;
the record's `id`, `name`, `email` equal the supplied values, and `users`
and `address` equal the supplied values when given and the no-value marker
when omitted. -/
theorem c1_valid_construction (i : Int) (n e : String)
    (ous : Option (List String)) (oad : Option String) :
    construct ([("id", Value.vint i), ("name", Value.vstr n),
        ("email", Value.vstr e)]
      ++ (match ous with
        | none => []
        | some us => [("users", Value.vlist (us.map Value.vstr))])
      ++ (match oad with
        | none => []
        | some ad => [("address", Value.vstr ad)]))
      = .ok { id := i, name := n, email := e, users := ous, address := oad } := by
  cases ous <;> cases oad <;>
    simp [construct, checkId, checkName, checkEmail, checkUsers, checkAddress,
      requiredField, optionalField, List.lookup, coerceInt, coerceStr,
      coerceListStr, coerceStrList_map]

/-- C2: an input mapping from which a required field (`id`, `name` or
`email`) is absent fails to construct, with an error list naming that
field as missing. -/
theorem c2_missing_required_fails (m : Fields) (f : String)
    (hf : f = "id" ∨ f = "name" ∨ f = "email")
    (h : List.lookup f m = none) :
    construct m = .error (fieldErrors m)
      ∧ (f, FieldErrorKind.missing) ∈ fieldErrors m := by
  have hmem : (f, FieldErrorKind.missing) ∈ fieldErrors m := by
    rcases hf with rfl | rfl | rfl <;>
      simp [fieldErrors, errList, checkId, checkName, checkEmail,
        requiredField, h]
  exact ⟨construct_eq_error_of_mem m _ hmem, hmem⟩

/-- C2 witness: scenario C, the mapping `{name: "NoId", email:
"x@example.com"}` with `id` absent fails and the error names `id` as
missing. -/
theorem c2_missing_required_fails_witness :
    construct [("name", Value.vstr "NoId"), ("email", Value.vstr "x@example.com")]
      = .error (fieldErrors
          [("name", Value.vstr "NoId"), ("email", Value.vstr "x@example.com")])
      ∧ ("id", FieldErrorKind.missing) ∈ fieldErrors
          [("name", Value.vstr "NoId"), ("email", Value.vstr "x@example.com")] :=
  c2_missing_required_fails
    [("name", Value.vstr "NoId"), ("email", Value.vstr "x@example.com")]
    "id" (Or.inl rfl) rfl

/-- C3 counterexample: the string value `"123"` supplied for `id` is not
integer-typed, yet construction succeeds (the validation layer coerces a
numeric string), contradicting the claim that any type mismatch on a
required field causes construction to fail. -/
theorem c3_counterexample :
    construct [("id", Value.vstr "123"), ("name", Value.vstr "Bad"),
        ("email", Value.vstr "x@example.com")]
      = .ok { id := 123, name := "Bad", email := "x@example.com",
              users := none, address := none } := rfl

/-- C3 amended: a value supplied for a required field that the validation
layer cannot coerce to the declared type (for `id`, anything other than an
integer or a string spelling an integer; for `name` and `email`, anything
other than a string) causes construction to fail. -/
theorem c3_uncoercible_mismatch_fails (m : Fields) (v : Value)
    (h : (List.lookup "id" m = some v ∧ coerceInt v = none)
       ∨ (List.lookup "name" m = some v ∧ coerceStr v = none)
       ∨ (List.lookup "email" m = some v ∧ coerceStr v = none)) :
    construct m = .error (fieldErrors m) := by
  rcases h with ⟨hv, hc⟩ | ⟨hv, hc⟩ | ⟨hv, hc⟩
  · exact construct_eq_error_of_mem m ("id", FieldErrorKind.wrongType)
      (by simp [fieldErrors, errList, checkId, requiredField, hv, hc])
  · exact construct_eq_error_of_mem m ("name", FieldErrorKind.wrongType)
      (by simp [fieldErrors, errList, checkName, requiredField, hv, hc])
  · exact construct_eq_error_of_mem m ("email", FieldErrorKind.wrongType)
      (by simp [fieldErrors, errList, checkEmail, requiredField, hv, hc])

/-- C3 amended witness: a boolean supplied for `name` cannot be coerced to
text, so construction fails. -/
theorem c3_uncoercible_mismatch_fails_witness :
    construct [("id", Value.vint 7), ("name", Value.vbool true),
        ("email", Value.vstr "x@example.com")]
      = .error (fieldErrors [("id", Value.vint 7), ("name", Value.vbool true),
          ("email", Value.vstr "x@example.com")]) :=
  c3_uncoercible_mismatch_fails
    [("id", Value.vint 7), ("name", Value.vbool true),
     ("email", Value.vstr "x@example.com")]
    (Value.vbool true) (Or.inr (Or.inl ⟨rfl, rfl⟩))

/-- C4: a value supplied for `id` that is neither an integer nor coercible
to one makes construction fail with an error list naming `id` as having
the wrong type. -/
theorem c4_id_not_coercible_fails (m : Fields) (v : Value)
    (hv : List.lookup "id" m = some v) (hc : coerceInt v = none) :
    construct m = .error (fieldErrors m)
      ∧ ("id", FieldErrorKind.wrongType) ∈ fieldErrors m := by
  have hmem : ("id", FieldErrorKind.wrongType) ∈ fieldErrors m := by
    simp [fieldErrors, errList, checkId, requiredField, hv, hc]
  exact ⟨construct_eq_error_of_mem m _ hmem, hmem⟩

/-- C4 witness: scenario D, the mapping `{id: "abc", name: "Bad", email:
"x@example.com"}` fails and the error names `id` with a type mismatch. -/
theorem c4_id_not_coercible_fails_witness :
    construct [("id", Value.vstr "abc"), ("name", Value.vstr "Bad"),
        ("email", Value.vstr "x@example.com")]
      = .error (fieldErrors [("id", Value.vstr "abc"), ("name", Value.vstr "Bad"),
          ("email", Value.vstr "x@example.com")])
      ∧ ("id", FieldErrorKind.wrongType) ∈ fieldErrors
          [("id", Value.vstr "abc"), ("name", Value.vstr "Bad"),
           ("email", Value.vstr "x@example.com")] :=
  c4_id_not_coercible_fails
    [("id", Value.vstr "abc"), ("name", Value.vstr "Bad"),
     ("email", Value.vstr "x@example.com")]
    (Value.vstr "abc") rfl rfl

/-- C5: serializing any constructed `User` to its field mapping (with
no-value markers for absent optional fields) and constructing again
succeeds and returns the original record. -/
theorem c5_roundtrip (u : User) : construct (toFields u) = .ok u := by
  obtain ⟨i, n, e, us, ad⟩ := u
  cases us <;> cases ad <;>
    simp [toFields, construct, checkId, checkName, checkEmail, checkUsers,
      checkAddress, requiredField, optionalField, List.lookup, coerceInt,
      coerceStr, coerceListStr, coerceStrList_map]

/-- C6: omitting `users` yields the no-value marker, which differs from an
empty sequence; supplying `users` as the empty list yields the empty
sequence, not the no-value marker. -/
theorem c6_absent_users_vs_empty (i : Int) (n e : String) :
    construct [("id", Value.vint i), ("name", Value.vstr n),
        ("email", Value.vstr e)]
      = .ok { id := i, name := n, email := e, users := none, address := none }
    ∧ construct [("id", Value.vint i), ("name", Value.vstr n),
        ("email", Value.vstr e), ("users", Value.vlist [])]
      = .ok { id := i, name := n, email := e, users := some [], address := none }
    ∧ (none : Option (List String)) ≠ some [] :=
  ⟨rfl, rfl, by simp⟩

/-- C7: construction is deterministic — equal input mappings give equal
outcomes. In this embedding `construct` is a pure total function of the
mapping, so it has no effect other than its result. -/
theorem c7_deterministic (m₁ m₂ : Fields) (h : m₁ = m₂) :
    construct m₁ = construct m₂ := by rw [h]

/-- C7 witness: two constructions from the same concrete mapping agree. -/
theorem c7_deterministic_witness :
    ([("id", Value.vint 1), ("name", Value.vstr "Ana"),
      ("email", Value.vstr "ana@example.com")] : Fields)
      = [("id", Value.vint 1), ("name", Value.vstr "Ana"),
         ("email", Value.vstr "ana@example.com")]
    ∧ construct [("id", Value.vint 1), ("name", Value.vstr "Ana"),
        ("email", Value.vstr "ana@example.com")]
      = construct [("id", Value.vint 1), ("name", Value.vstr "Ana"),
          ("email", Value.vstr "ana@example.com")] :=
  ⟨rfl, c7_deterministic _ _ rfl⟩

/-- C9: explicitly supplying the no-value marker for `users` or `address`
(or both) is accepted and gives the same record as omitting the field. -/
theorem c9_explicit_none_eq_omitted (i : Int) (n e : String) :
    construct [("id", Value.vint i), ("name", Value.vstr n),
        ("email", Value.vstr e), ("users", Value.vnone)]
      = construct [("id", Value.vint i), ("name", Value.vstr n),
          ("email", Value.vstr e)]
    ∧ construct [("id", Value.vint i), ("name", Value.vstr n),
        ("email", Value.vstr e), ("address", Value.vnone)]
      = construct [("id", Value.vint i), ("name", Value.vstr n),
          ("email", Value.vstr e)]
    ∧ construct [("id", Value.vint i), ("name", Value.vstr n),
        ("email", Value.vstr e), ("users", Value.vnone), ("address", Value.vnone)]
      = construct [("id", Value.vint i), ("name", Value.vstr n),
          ("email", Value.vstr e)]
    ∧ construct [("id", Value.vint i), ("name", Value.vstr n),
        ("email", Value.vstr e)]
      = .ok { id := i, name := n, email := e, users := none, address := none } :=
  ⟨rfl, rfl, rfl, rfl⟩

/-- C10: appending entries whose keys are none of the five declared field
names to a valid mapping leaves construction unchanged: it still succeeds
and yields the record obtained without the extra entries. -/
theorem c10_extra_keys_ignored (i : Int) (n e : String) (extra : Fields)
    (h1 : List.lookup "id" extra = none)
    (h2 : List.lookup "name" extra = none)
    (h3 : List.lookup "email" extra = none)
    (h4 : List.lookup "users" extra = none)
    (h5 : List.lookup "address" extra = none) :
    construct ([("id", Value.vint i), ("name", Value.vstr n),
        ("email", Value.vstr e)] ++ extra)
      = .ok { id := i, name := n, email := e, users := none, address := none }
    ∧ construct ([("id", Value.vint i), ("name", Value.vstr n),
        ("email", Value.vstr e)] ++ extra)
      = construct [("id", Value.vint i), ("name", Value.vstr n),
          ("email", Value.vstr e)] := by
  have key : construct ([("id", Value.vint i), ("name", Value.vstr n),
      ("email", Value.vstr e)] ++ extra)
      = .ok { id := i, name := n, email := e, users := none, address := none } := by
    simp [construct, checkId, checkName, checkEmail, checkUsers, checkAddress,
      requiredField, optionalField, List.lookup_append, List.lookup, coerceInt,
      coerceStr, h1, h2, h3, h4, h5]
  exact ⟨key, key.trans rfl⟩

/-- C10 witness: an extra `role` entry is ignored and construction
succeeds with the same record as without it. -/
theorem c10_extra_keys_ignored_witness :
    List.lookup "id" [("role", Value.vstr "admin")] = none
    ∧ List.lookup "name" [("role", Value.vstr "admin")] = none
    ∧ List.lookup "email" [("role", Value.vstr "admin")] = none
    ∧ List.lookup "users" [("role", Value.vstr "admin")] = none
    ∧ List.lookup "address" [("role", Value.vstr "admin")] = none
    ∧ construct ([("id", Value.vint 1), ("name", Value.vstr "Ana"),
        ("email", Value.vstr "ana@example.com")] ++ [("role", Value.vstr "admin")])
      = .ok { id := 1, name := "Ana", email := "ana@example.com",
              users := none, address := none } :=
  ⟨rfl, rfl, rfl, rfl, rfl,
    (c10_extra_keys_ignored 1 "Ana" "ana@example.com"
      [("role", Value.vstr "admin")] rfl rfl rfl rfl rfl).1⟩

end Models
